import Mathlib

/-!
# cuda_info: platform, device and kernel attribute reports

A shallow embedding of `CudaInfo.hpp`, `CudaInfo.cpp` and `cuda_info.cpp`.

* C++ `int` values are `Int`; no arithmetic of the program can overflow (it is
  `/ 1000`, `% 100`, the constant `16 * (1 << 10)` and the loop counter of
  `main`, which stays below the device count).
* C++ `size_t` values are `Nat`; the one place where a `size_t` is returned as
  `int`, `get_kernel_shared_mem`, goes through `int_of_size_t`.
* The vendor query API is a record `Backend` of what each call stores through
  its out-parameter (`none` when the call stores nothing, which leaves the
  destination as it was: the program ignores the return codes).
* Members that a constructor never writes keep the value of the uninitialised
  object, which every constructor takes as an explicit argument.
* The process-wide effects (calls issued to the vendor API, the calling
  thread's active device, text written to `cout`) are explicit state `World`.
-/

namespace cuda_info

/-! ## Text formatting -/

/-- Text produced by a `%d` directive of `boost::format` for an integer:
decimal digits, with a leading minus sign for a negative value. -/
def fmt_d (n : Int) : String := Int.repr n

/-- Function `boost::algorithm::join(summary, sep)`. -/
def join (summary : List String) (sep : String) : String := sep.intercalate summary

/-! ## Vendor declarations used by the program -/

/-- Cache preference enumeration of the vendor runtime header. -/
inductive cudaFuncCache where
  | cudaFuncCachePreferNone
  | cudaFuncCachePreferShared
  | cudaFuncCachePreferL1
  deriving DecidableEq

/-- Error code of the vendor runtime. -/
abbrev cudaError_t := Int

/-- Code of a successful runtime call. -/
def cudaSuccess : cudaError_t := 0

/-- Kernel entry point, `typedef void(*kernel_ptr)()`: an address. -/
abbrev kernel_ptr := Nat

/-- Attribute record filled by `cudaFuncGetAttributes`; the fields the program
reads. The three byte counts are `size_t` (unsigned), the two others `int`. -/
structure cudaFuncAttributes where
  constSizeBytes : Nat
  localSizeBytes : Nat
  maxThreadsPerBlock : Int
  numRegs : Int
  sharedSizeBytes : Nat
  deriving DecidableEq

/-- Implicit conversion of a `size_t` value to the 32-bit `int` a function
returns: the value modulo `2^32`, read as a two's-complement number. -/
def int_of_size_t (n : Nat) : Int :=
  if n % 2 ^ 32 < 2 ^ 31 then ((n % 2 ^ 32 : Nat) : Int) else ((n % 2 ^ 32 : Nat) : Int) - 2 ^ 32

/-- Attribute codes passed to `cuDeviceGetAttribute` by the program. -/
inductive CUdevice_attribute where
  | CU_DEVICE_ATTRIBUTE_MULTIPROCESSOR_COUNT
  | CU_DEVICE_ATTRIBUTE_TOTAL_CONSTANT_MEMORY
  | CU_DEVICE_ATTRIBUTE_MAX_SHARED_MEMORY_PER_BLOCK
  | CU_DEVICE_ATTRIBUTE_MAX_REGISTERS_PER_BLOCK
  | CU_DEVICE_ATTRIBUTE_WARP_SIZE
  | CU_DEVICE_ATTRIBUTE_MAX_THREADS_PER_BLOCK
  | CU_DEVICE_ATTRIBUTE_MAX_BLOCK_DIM_X
  | CU_DEVICE_ATTRIBUTE_MAX_BLOCK_DIM_Y
  | CU_DEVICE_ATTRIBUTE_MAX_BLOCK_DIM_Z
  | CU_DEVICE_ATTRIBUTE_MAX_GRID_DIM_X
  | CU_DEVICE_ATTRIBUTE_MAX_GRID_DIM_Y
  | CU_DEVICE_ATTRIBUTE_MAX_GRID_DIM_Z
  | CU_DEVICE_ATTRIBUTE_MAX_PITCH
  | CU_DEVICE_ATTRIBUTE_TEXTURE_ALIGNMENT
  | CU_DEVICE_ATTRIBUTE_CLOCK_RATE
  | CU_DEVICE_ATTRIBUTE_GPU_OVERLAP
  | CU_DEVICE_ATTRIBUTE_KERNEL_EXEC_TIMEOUT
  | CU_DEVICE_ATTRIBUTE_INTEGRATED
  | CU_DEVICE_ATTRIBUTE_CAN_MAP_HOST_MEMORY
  | CU_DEVICE_ATTRIBUTE_COMPUTE_MODE
  deriving DecidableEq

open CUdevice_attribute

/-- Preprocessor constants the translation units test: the two version macros
of the vendor headers and whether `LOGGING` is defined. -/
structure Build where
  CUDA_VERSION : Nat
  CUDART_VERSION : Nat
  LOGGING : Bool
  deriving DecidableEq

/-- Vendor query API as the program sees it. Each query gives what the call
stores through its out-parameter, `none` when it stores nothing. -/
structure Backend where
  cuDeviceGetCount : Option Int
  cudaDriverGetVersion : Option Int
  cudaRuntimeGetVersion : Option Int
  cuDeviceGetName : Int → Option String
  cuDeviceComputeCapability : Int → Option (Int × Int)
  cuDeviceTotalMem : Int → Option Nat
  cuDeviceGetAttribute : CUdevice_attribute → Int → Option Int
  cudaFuncGetAttributes : kernel_ptr → cudaError_t × Option cudaFuncAttributes
  cudaGetErrorString : cudaError_t → String

/-- Value of a destination after a query that ignores the return code. -/
def store {α : Type} (q : Option α) (old : α) : α := q.getD old

/-! ## Process state -/

/-- One call issued by the program to a collaborator outside it. -/
inductive ApiCall where
  | cuInit
  | cuDeviceGetCount
  | cudaDriverGetVersion
  | cudaRuntimeGetVersion
  | cuDeviceGetName (dev : Int)
  | cuDeviceComputeCapability (dev : Int)
  | cuDeviceTotalMem (dev : Int)
  | cuDeviceGetAttribute (attr : CUdevice_attribute) (dev : Int)
  | cudaFuncGetAttributes (kernel : kernel_ptr)
  | cudaGetErrorString (error : cudaError_t)
  | cudaThreadExit
  | cudaSetDevice (dev : Int)
  | logger_notice (msg : String)
  deriving DecidableEq

/-- Process-wide state the program acts on: the calling thread's active-device
binding (`none` when the thread holds no device context), the calls issued so
far in order, and the text written to `cout`. -/
structure World where
  activeDevice : Option Int
  calls : List ApiCall
  stdout : String
  deriving DecidableEq

/-- Record one issued call. -/
def World.call (w : World) (c : ApiCall) : World :=
  { w with calls := w.calls ++ [c] }

/-- Statement `cout << text`. -/
def World.print (w : World) (text : String) : World :=
  { w with stdout := w.stdout ++ text }

/-- Vendor call `cudaThreadExit()`: tears down the device context of the
calling thread. -/
def cudaThreadExit (w : World) : World :=
  { w with activeDevice := none, calls := w.calls ++ [ApiCall.cudaThreadExit] }

/-- Vendor call `cudaSetDevice(dev)`: binds the calling thread to `dev`. The
program does not look at the return code; the effect of the call on a thread
without a context is modelled. -/
def cudaSetDevice (dev : Int) (w : World) : World :=
  { w with activeDevice := some dev, calls := w.calls ++ [ApiCall.cudaSetDevice dev] }

/-- How a constructor or `main` ends. -/
inductive Outcome (α : Type) where
  | returned (a : α)
  | thrown (what : String)
  | aborted
  deriving DecidableEq

/-! ## `CudaInfo` -/

/-- Class `CudaInfo`. -/
structure CudaInfo where
  deviceCount : Int
  driverVersion : Int
  runtimeVersion : Int
  deriving DecidableEq

/-- Method `CudaInfo::get_driver_info`; `assert` ends the run as `aborted`. -/
def CudaInfo.get_driver_info (cfg : Build) (b : Backend) (self : CudaInfo) (w : World) :
    Outcome CudaInfo × World :=
  let self0 := { self with deviceCount := 0 }
  let w1 := w.call ApiCall.cuInit
  let self1 := { self0 with deviceCount := store b.cuDeviceGetCount self0.deviceCount }
  let w2 := w1.call ApiCall.cuDeviceGetCount
  if self1.deviceCount ≠ 0 then
    if cfg.CUDART_VERSION ≥ 2020 then
      let self2 := { self1 with driverVersion := store b.cudaDriverGetVersion self1.driverVersion }
      let w3 := w2.call ApiCall.cudaDriverGetVersion
      let self3 :=
        { self2 with runtimeVersion := store b.cudaRuntimeGetVersion self2.runtimeVersion }
      let w4 := w3.call ApiCall.cudaRuntimeGetVersion
      (Outcome.returned self3, w4)
    else
      (Outcome.returned self1, w2)
  else
    (Outcome.aborted, w2)

/-- Constructor `CudaInfo::CudaInfo()`, run on the uninitialised object `uninit`. -/
def CudaInfo.new (cfg : Build) (b : Backend) (uninit : CudaInfo) (w : World) :
    Outcome CudaInfo × World :=
  CudaInfo.get_driver_info cfg b uninit w

/-- Text of `"%d.%d" % (version / 1000) % (version % 100)`, the version
rendering that `get_info` applies to the driver and to the runtime version. -/
def version_text (version : Int) : String :=
  fmt_d (Int.tdiv version 1000) ++ "." ++ fmt_d (Int.tmod version 100)

/-- Lines pushed on `summary` by `CudaInfo::get_info`. -/
def CudaInfo.summary (self : CudaInfo) : List String :=
  [ "CUDA info:",
    "  Device Count:          " ++ fmt_d self.deviceCount,
    "  CUDA Driver Version:   " ++ version_text self.driverVersion,
    "  CUDA Runtime Version:  " ++ version_text self.runtimeVersion ]

/-- Method `CudaInfo::get_info`. -/
def CudaInfo.get_info (self : CudaInfo) : String :=
  join self.summary "\n"

/-- Method `CudaInfo::get_device_count`. -/
def CudaInfo.get_device_count (self : CudaInfo) : Int := self.deviceCount

/-- Method `CudaInfo::get_driver_version`. -/
def CudaInfo.get_driver_version (self : CudaInfo) : Int := self.driverVersion

/-- Method `CudaInfo::get_runtime_version`. -/
def CudaInfo.get_runtime_version (self : CudaInfo) : Int := self.runtimeVersion

/-! ## `CudaKernel` -/

/-- Class `CudaKernel`. -/
structure CudaKernel where
  kernel : kernel_ptr
  func_attr : cudaFuncAttributes
  deriving DecidableEq

/-- Method `CudaKernel::checked_get_function_attributes`; the `throw` of a
`std::runtime_error` ends the run as `thrown` with its message. -/
def CudaKernel.checked_get_function_attributes (b : Backend) (self : CudaKernel) (w : World) :
    Outcome CudaKernel × World :=
  let error := (b.cudaFuncGetAttributes self.kernel).1
  let self1 :=
    { self with func_attr := store (b.cudaFuncGetAttributes self.kernel).2 self.func_attr }
  let w1 := w.call (ApiCall.cudaFuncGetAttributes self.kernel)
  if error ≠ cudaSuccess then
    (Outcome.thrown ("CUDA error: " ++ b.cudaGetErrorString error),
      w1.call (ApiCall.cudaGetErrorString error))
  else
    (Outcome.returned self1, w1)

/-- Constructor `CudaKernel::CudaKernel(kernel_ptr kernel)`; `uninit` is the
content of `func_attr` before the query. -/
def CudaKernel.new (b : Backend) (kernel : kernel_ptr) (uninit : cudaFuncAttributes) (w : World) :
    Outcome CudaKernel × World :=
  CudaKernel.checked_get_function_attributes b { kernel := kernel, func_attr := uninit } w

/-- Method `CudaKernel::get_kernel_info`. -/
def CudaKernel.get_kernel_info (self : CudaKernel) : String :=
  join
    [ "Kernel attributes:",
      "  constSizeBytes:         " ++ fmt_d (self.func_attr.constSizeBytes : Int),
      "  localSizeBytes:         " ++ fmt_d (self.func_attr.localSizeBytes : Int),
      "  maxThreadsPerBlock:     " ++ fmt_d self.func_attr.maxThreadsPerBlock,
      "  numRegs:                " ++ fmt_d self.func_attr.numRegs,
      "  sharedSizeBytes:        " ++ fmt_d (self.func_attr.sharedSizeBytes : Int) ]
    "\n"

/-- Method `CudaKernel::get_kernel_shared_mem`: it returns the `size_t` member
`sharedSizeBytes` as `int`. -/
def CudaKernel.get_kernel_shared_mem (self : CudaKernel) : Int :=
  int_of_size_t self.func_attr.sharedSizeBytes

/-- Method `CudaKernel::get_kernel_reg_count`. -/
def CudaKernel.get_kernel_reg_count (self : CudaKernel) : Int := self.func_attr.numRegs

/-- Method `CudaKernel::get_kernel_max_threads_per_block`. -/
def CudaKernel.get_kernel_max_threads_per_block (self : CudaKernel) : Int :=
  self.func_attr.maxThreadsPerBlock

/-! ## `CudaDevice` -/

/-- Class `CudaDevice`; the arrays `blockDim[3]` and `gridDim[3]` are triples. -/
structure CudaDevice where
  id : Int
  device_name : String
  major : Int
  minor : Int
  totalGlobalMem : Nat
  multiProcessorCount : Int
  totalConstantMemory : Int
  sharedMemPerBlock : Int
  regsPerBlock : Int
  warpSize : Int
  maxThreadsPerBlock : Int
  blockDim : Int × Int × Int
  gridDim : Int × Int × Int
  memPitch : Int
  textureAlign : Int
  clockRate : Int
  gpuOverlap : Int
  kernelExecTimeoutEnabled : Int
  integrated : Int
  canMapHostMemory : Int
  computeMode : Int
  deriving DecidableEq

/-- Calls that `CudaDevice::get_device_attributes` issues for device `id`, in order. -/
def CudaDevice.query_sequence (cfg : Build) (id : Int) : List ApiCall :=
  [ApiCall.cuInit, ApiCall.cuDeviceGetName id, ApiCall.cuDeviceComputeCapability id,
    ApiCall.cuDeviceTotalMem id]
  ++ (if cfg.CUDA_VERSION ≥ 2000 then
        [ApiCall.cuDeviceGetAttribute CU_DEVICE_ATTRIBUTE_MULTIPROCESSOR_COUNT id]
      else [])
  ++ [ApiCall.cuDeviceGetAttribute CU_DEVICE_ATTRIBUTE_TOTAL_CONSTANT_MEMORY id,
      ApiCall.cuDeviceGetAttribute CU_DEVICE_ATTRIBUTE_MAX_SHARED_MEMORY_PER_BLOCK id,
      ApiCall.cuDeviceGetAttribute CU_DEVICE_ATTRIBUTE_MAX_REGISTERS_PER_BLOCK id,
      ApiCall.cuDeviceGetAttribute CU_DEVICE_ATTRIBUTE_WARP_SIZE id,
      ApiCall.cuDeviceGetAttribute CU_DEVICE_ATTRIBUTE_MAX_THREADS_PER_BLOCK id,
      ApiCall.cuDeviceGetAttribute CU_DEVICE_ATTRIBUTE_MAX_BLOCK_DIM_X id,
      ApiCall.cuDeviceGetAttribute CU_DEVICE_ATTRIBUTE_MAX_BLOCK_DIM_Y id,
      ApiCall.cuDeviceGetAttribute CU_DEVICE_ATTRIBUTE_MAX_BLOCK_DIM_Z id,
      ApiCall.cuDeviceGetAttribute CU_DEVICE_ATTRIBUTE_MAX_GRID_DIM_X id,
      ApiCall.cuDeviceGetAttribute CU_DEVICE_ATTRIBUTE_MAX_GRID_DIM_Y id,
      ApiCall.cuDeviceGetAttribute CU_DEVICE_ATTRIBUTE_MAX_GRID_DIM_Z id,
      ApiCall.cuDeviceGetAttribute CU_DEVICE_ATTRIBUTE_MAX_PITCH id,
      ApiCall.cuDeviceGetAttribute CU_DEVICE_ATTRIBUTE_TEXTURE_ALIGNMENT id,
      ApiCall.cuDeviceGetAttribute CU_DEVICE_ATTRIBUTE_CLOCK_RATE id]
  ++ (if cfg.CUDA_VERSION ≥ 2000 then
        [ApiCall.cuDeviceGetAttribute CU_DEVICE_ATTRIBUTE_GPU_OVERLAP id]
      else [])
  ++ (if cfg.CUDA_VERSION ≥ 2020 then
        [ApiCall.cuDeviceGetAttribute CU_DEVICE_ATTRIBUTE_KERNEL_EXEC_TIMEOUT id,
          ApiCall.cuDeviceGetAttribute CU_DEVICE_ATTRIBUTE_INTEGRATED id,
          ApiCall.cuDeviceGetAttribute CU_DEVICE_ATTRIBUTE_CAN_MAP_HOST_MEMORY id,
          ApiCall.cuDeviceGetAttribute CU_DEVICE_ATTRIBUTE_COMPUTE_MODE id]
      else [])

/-- Members of the object after the queries of
`CudaDevice::get_device_attributes`. Every query is made against `self.id` and
stored in its member; a query inside an `#if` region that the build leaves out
does not happen and its member keeps its prior value. -/
def CudaDevice.queried (cfg : Build) (b : Backend) (self : CudaDevice) : CudaDevice :=
  let id := self.id
  let attr := fun (a : CUdevice_attribute) (old : Int) => store (b.cuDeviceGetAttribute a id) old
  let v2000 := fun (a : CUdevice_attribute) (old : Int) =>
    if cfg.CUDA_VERSION ≥ 2000 then attr a old else old
  let v2020 := fun (a : CUdevice_attribute) (old : Int) =>
    if cfg.CUDA_VERSION ≥ 2020 then attr a old else old
  { id := id,
    device_name := store (b.cuDeviceGetName id) self.device_name,
    major := store ((b.cuDeviceComputeCapability id).map Prod.fst) self.major,
    minor := store ((b.cuDeviceComputeCapability id).map Prod.snd) self.minor,
    totalGlobalMem := store (b.cuDeviceTotalMem id) self.totalGlobalMem,
    multiProcessorCount := v2000 CU_DEVICE_ATTRIBUTE_MULTIPROCESSOR_COUNT self.multiProcessorCount,
    totalConstantMemory := attr CU_DEVICE_ATTRIBUTE_TOTAL_CONSTANT_MEMORY self.totalConstantMemory,
    sharedMemPerBlock :=
      attr CU_DEVICE_ATTRIBUTE_MAX_SHARED_MEMORY_PER_BLOCK self.sharedMemPerBlock,
    regsPerBlock := attr CU_DEVICE_ATTRIBUTE_MAX_REGISTERS_PER_BLOCK self.regsPerBlock,
    warpSize := attr CU_DEVICE_ATTRIBUTE_WARP_SIZE self.warpSize,
    maxThreadsPerBlock := attr CU_DEVICE_ATTRIBUTE_MAX_THREADS_PER_BLOCK self.maxThreadsPerBlock,
    blockDim :=
      (attr CU_DEVICE_ATTRIBUTE_MAX_BLOCK_DIM_X self.blockDim.1,
       attr CU_DEVICE_ATTRIBUTE_MAX_BLOCK_DIM_Y self.blockDim.2.1,
       attr CU_DEVICE_ATTRIBUTE_MAX_BLOCK_DIM_Z self.blockDim.2.2),
    gridDim :=
      (attr CU_DEVICE_ATTRIBUTE_MAX_GRID_DIM_X self.gridDim.1,
       attr CU_DEVICE_ATTRIBUTE_MAX_GRID_DIM_Y self.gridDim.2.1,
       attr CU_DEVICE_ATTRIBUTE_MAX_GRID_DIM_Z self.gridDim.2.2),
    memPitch := attr CU_DEVICE_ATTRIBUTE_MAX_PITCH self.memPitch,
    textureAlign := attr CU_DEVICE_ATTRIBUTE_TEXTURE_ALIGNMENT self.textureAlign,
    clockRate := attr CU_DEVICE_ATTRIBUTE_CLOCK_RATE self.clockRate,
    gpuOverlap := v2000 CU_DEVICE_ATTRIBUTE_GPU_OVERLAP self.gpuOverlap,
    kernelExecTimeoutEnabled :=
      v2020 CU_DEVICE_ATTRIBUTE_KERNEL_EXEC_TIMEOUT self.kernelExecTimeoutEnabled,
    integrated := v2020 CU_DEVICE_ATTRIBUTE_INTEGRATED self.integrated,
    canMapHostMemory := v2020 CU_DEVICE_ATTRIBUTE_CAN_MAP_HOST_MEMORY self.canMapHostMemory,
    computeMode := v2020 CU_DEVICE_ATTRIBUTE_COMPUTE_MODE self.computeMode }

/-- Method `CudaDevice::get_device_attributes`: the members after the queries,
and the process state with the issued calls recorded. -/
def CudaDevice.get_device_attributes (cfg : Build) (b : Backend) (self : CudaDevice) (w : World) :
    CudaDevice × World :=
  (self.queried cfg b, { w with calls := w.calls ++ CudaDevice.query_sequence cfg self.id })

/-- Constructor `CudaDevice::CudaDevice(int id)`, run on the uninitialised
object `uninit`: it sets `id` and runs `get_device_attributes`; it has no
statement that throws or asserts. -/
def CudaDevice.new (cfg : Build) (b : Backend) (id : Int) (uninit : CudaDevice) (w : World) :
    Outcome CudaDevice × World :=
  let r := CudaDevice.get_device_attributes cfg b { uninit with id := id } w
  (Outcome.returned r.1, r.2)

/-- Method `CudaDevice::set_device`. -/
def CudaDevice.set_device (cfg : Build) (self : CudaDevice) (w : World) : World :=
  let w1 :=
    if cfg.LOGGING then
      w.call (ApiCall.logger_notice ("Setting CUDA device: cudaSetDevice(" ++ fmt_d self.id ++ ")"))
    else w
  let w2 := cudaThreadExit w1
  cudaSetDevice self.id w2

/-- Method `CudaDevice::get_device_info`. The argument `fmt_2f` is the text that
the `%.2f` directive yields for the double `clockRate * 1e-6`, given `clockRate`. -/
def CudaDevice.get_device_info (fmt_2f : Int → String) (self : CudaDevice) : String :=
  join
    [ "Device name:    " ++ self.device_name,
      "  CUDA Cap. Major revision #:   " ++ fmt_d self.major,
      "  CUDA Cap. Minor revision #:   " ++ fmt_d self.minor,
      "  totalGlobalMem                " ++ fmt_d self.totalGlobalMem ++ " bytes",
      "  multiProcessorCount           " ++ fmt_d self.multiProcessorCount,
      "  totalConstantMemory           " ++ fmt_d self.totalConstantMemory,
      "  sharedMemPerBlock             " ++ fmt_d self.sharedMemPerBlock,
      "  regsPerBlock                  " ++ fmt_d self.regsPerBlock,
      "  warpSize                      " ++ fmt_d self.warpSize,
      "  maxThreadsPerBlock            " ++ fmt_d self.maxThreadsPerBlock,
      "  blockDim[3]                   " ++ fmt_d self.blockDim.1 ++ " x "
        ++ fmt_d self.blockDim.2.1 ++ " x " ++ fmt_d self.blockDim.2.2,
      "  gridDim[3]                    " ++ fmt_d self.gridDim.1 ++ " x "
        ++ fmt_d self.gridDim.2.1 ++ " x " ++ fmt_d self.gridDim.2.2,
      "  memPitch                      " ++ fmt_d self.memPitch ++ " bytes",
      "  textureAlign                  " ++ fmt_d self.textureAlign ++ " bytes",
      "  clockRate                     " ++ fmt_2f self.clockRate ++ " GHz",
      "  gpuOverlap                    " ++ fmt_d self.gpuOverlap,
      "  integrated                    " ++ fmt_d self.integrated,
      "  canMapHostMemory              " ++ fmt_d self.canMapHostMemory,
      "  computeMode                   " ++ fmt_d self.computeMode,
      "  kernelExecTimeoutEnabled      " ++ fmt_d self.kernelExecTimeoutEnabled ]
    "\n"

/-- Method `CudaDevice::get_multi_processor_count`. -/
def CudaDevice.get_multi_processor_count (self : CudaDevice) : Int := self.multiProcessorCount

/-- Method `CudaDevice::get_max_shared_memory()`. -/
def CudaDevice.get_max_shared_memory (self : CudaDevice) : Int := self.sharedMemPerBlock

/-- Method `CudaDevice::get_max_shared_memory(cudaFuncCache pref)`. -/
def CudaDevice.get_max_shared_memory_pref (self : CudaDevice) (pref : cudaFuncCache) : Int :=
  if pref = cudaFuncCache.cudaFuncCachePreferL1 ∧ self.major ≥ 2 then
    16 * (1 <<< 10)
  else
    self.sharedMemPerBlock

/-- Method `CudaDevice::get_major`. -/
def CudaDevice.get_major (self : CudaDevice) : Int := self.major

/-- Method `CudaDevice::get_minor`. -/
def CudaDevice.get_minor (self : CudaDevice) : Int := self.minor

/-- Method `CudaDevice::get_max_threads_per_block`. -/
def CudaDevice.get_max_threads_per_block (self : CudaDevice) : Int := self.maxThreadsPerBlock

/-- Method `CudaDevice::get_max_regs_per_block`. -/
def CudaDevice.get_max_regs_per_block (self : CudaDevice) : Int := self.regsPerBlock

/-- Public operations of `CudaDevice`. -/
inductive CudaDeviceOp where
  | construct (id : Int) (uninit : CudaDevice)
  | set_device
  | get_device_info (fmt_2f : Int → String)
  | get_multi_processor_count
  | get_max_shared_memory
  | get_max_shared_memory_pref (pref : cudaFuncCache)
  | get_major
  | get_minor
  | get_max_threads_per_block
  | get_max_regs_per_block

/-- Process state after one public operation of `CudaDevice` on the object
`self` (`construct` builds a new object instead). The `const` accessors and
`get_device_info` issue no call: they only read members. -/
def CudaDeviceOp.run (cfg : Build) (b : Backend) (op : CudaDeviceOp) (self : CudaDevice)
    (w : World) : World :=
  match op with
  | CudaDeviceOp.construct id uninit => (CudaDevice.new cfg b id uninit w).2
  | CudaDeviceOp.set_device => self.set_device cfg w
  | CudaDeviceOp.get_device_info _ => w
  | CudaDeviceOp.get_multi_processor_count => w
  | CudaDeviceOp.get_max_shared_memory => w
  | CudaDeviceOp.get_max_shared_memory_pref _ => w
  | CudaDeviceOp.get_major => w
  | CudaDeviceOp.get_minor => w
  | CudaDeviceOp.get_max_threads_per_block => w
  | CudaDeviceOp.get_max_regs_per_block => w

/-! ## `main` -/

/-- Loop `for(int i = 0; i < ci.get_device_count(); i++)` of `main`, entered
with counter `i`. The object `dev` of iteration `i` starts from the
uninitialised content `uninit i`; `endl` writes a newline. -/
def main_loop (cfg : Build) (b : Backend) (fmt_2f : Int → String) (uninit : Int → CudaDevice)
    (ci : CudaInfo) (i : Int) (w : World) : Outcome Unit × World :=
  if i < ci.get_device_count then
    match CudaDevice.new cfg b i (uninit i) w with
    | (Outcome.returned dev, w1) =>
        main_loop cfg b fmt_2f uninit ci (i + 1) (w1.print (dev.get_device_info fmt_2f ++ "\n"))
    | (Outcome.thrown what, w1) => (Outcome.thrown what, w1)
    | (Outcome.aborted, w1) => (Outcome.aborted, w1)
  else
    (Outcome.returned (), w)
termination_by (ci.get_device_count - i).toNat
decreasing_by omega

/-- Function `main` of `cuda_info.cpp`; the result is the exit code. -/
def main (cfg : Build) (b : Backend) (fmt_2f : Int → String) (uninit_ci : CudaInfo)
    (uninit : Int → CudaDevice) (w : World) : Outcome Int × World :=
  match CudaInfo.new cfg b uninit_ci w with
  | (Outcome.returned ci, w1) =>
      match main_loop cfg b fmt_2f uninit ci 0 (w1.print (ci.get_info ++ "\n")) with
      | (Outcome.returned _, w2) => (Outcome.returned 0, w2)
      | (Outcome.thrown what, w2) => (Outcome.thrown what, w2)
      | (Outcome.aborted, w2) => (Outcome.aborted, w2)
  | (Outcome.thrown what, w1) => (Outcome.thrown what, w1)
  | (Outcome.aborted, w1) => (Outcome.aborted, w1)

/-! ## Fixtures: an in-memory backend -/

/-- Device with the given compute-capability major number and shared memory
per block, every other member zero. -/
def sample_device (major sharedMemPerBlock : Int) : CudaDevice :=
  { id := 0, device_name := "", major := major, minor := 0, totalGlobalMem := 0,
    multiProcessorCount := 0, totalConstantMemory := 0, sharedMemPerBlock := sharedMemPerBlock,
    regsPerBlock := 0, warpSize := 0, maxThreadsPerBlock := 0, blockDim := (0, 0, 0),
    gridDim := (0, 0, 0), memPitch := 0, textureAlign := 0, clockRate := 0, gpuOverlap := 0,
    kernelExecTimeoutEnabled := 0, integrated := 0, canMapHostMemory := 0, computeMode := 0 }

/-- Attribute record of the in-memory backend. -/
def fake_func_attr : cudaFuncAttributes :=
  { constSizeBytes := 64, localSizeBytes := 0, maxThreadsPerBlock := 512, numRegs := 21,
    sharedSizeBytes := 4096 }

/-- In-memory backend: `count` is what the count query stores, `error` the
code the function-attribute query returns. Every device reports compute
capability 2.1, 14 multiprocessors, 49152 bytes of shared memory per block,
32768 registers and 1024 threads per block, and 0 for the other attributes. -/
def fake_backend (count : Option Int) (error : cudaError_t) : Backend :=
  { cuDeviceGetCount := count,
    cudaDriverGetVersion := some 3020,
    cudaRuntimeGetVersion := some 3020,
    cuDeviceGetName := fun dev => some ("GPU " ++ fmt_d dev),
    cuDeviceComputeCapability := fun _ => some (2, 1),
    cuDeviceTotalMem := fun _ => some 1073741824,
    cuDeviceGetAttribute := fun a _ =>
      match a with
      | CU_DEVICE_ATTRIBUTE_MULTIPROCESSOR_COUNT => some 14
      | CU_DEVICE_ATTRIBUTE_MAX_SHARED_MEMORY_PER_BLOCK => some 49152
      | CU_DEVICE_ATTRIBUTE_MAX_REGISTERS_PER_BLOCK => some 32768
      | CU_DEVICE_ATTRIBUTE_MAX_THREADS_PER_BLOCK => some 1024
      | _ => some 0,
    cudaFuncGetAttributes := fun _ =>
      if error = cudaSuccess then (error, some fake_func_attr) else (error, none),
    cudaGetErrorString := fun e =>
      if e = cudaSuccess then "no error" else "invalid device function" }

/-- Build against an SDK of version 3.2 without logging. -/
def build_3020 : Build := { CUDA_VERSION := 3020, CUDART_VERSION := 3020, LOGGING := false }

/-- Attribute record whose shared-memory footprint, `2^32 + 5`, is beyond `int`. -/
def wide_func_attr : cudaFuncAttributes :=
  { constSizeBytes := 64, localSizeBytes := 0, maxThreadsPerBlock := 512, numRegs := 21,
    sharedSizeBytes := 4294967301 }

/-- In-memory backend whose function-attribute query succeeds and stores
`wide_func_attr`; its other queries are those of `fake_backend (some 1) 0`. -/
def wide_backend : Backend :=
  { fake_backend (some 1) 0 with
    cudaFuncGetAttributes := fun _ => (cudaSuccess, some wide_func_attr) }

/-- Process state of a fresh thread: no device context, no call issued, no output. -/
def World.fresh : World := { activeDevice := none, calls := [], stdout := "" }

/-! ## Decimal text has no line break -/

theorem digitChar_ne_newline (k : Nat) (h : k < 10) : Nat.digitChar k ≠ '\n' := by
  interval_cases k <;> decide

theorem toDigitsCore_ne_newline (fuel : Nat) :
    ∀ (n : Nat) (acc : List Char), (∀ c ∈ acc, c ≠ '\n') →
      ∀ c ∈ Nat.toDigitsCore 10 fuel n acc, c ≠ '\n' := by
  induction fuel with
  | zero =>
    intro n acc h c hc
    simpa [Nat.toDigitsCore] using h c (by simpa [Nat.toDigitsCore] using hc)
  | succ f ih =>
    intro n acc h c hc
    have hd : Nat.digitChar (n % 10) ≠ '\n' := digitChar_ne_newline _ (Nat.mod_lt _ (by decide))
    have hacc : ∀ c ∈ Nat.digitChar (n % 10) :: acc, c ≠ '\n' := by
      intro c hc
      rcases List.mem_cons.1 hc with h1 | h1
      · exact h1 ▸ hd
      · exact h c h1
    simp only [Nat.toDigitsCore] at hc
    split at hc
    · exact hacc c hc
    · exact ih _ _ hacc c hc

theorem nat_repr_ne_newline (n : Nat) : ∀ c ∈ (Nat.repr n).data, c ≠ '\n' := by
  intro c hc
  have : c ∈ Nat.toDigits 10 n := by simpa [Nat.repr, List.asString] using hc
  exact toDigitsCore_ne_newline _ _ [] (by simp) c this

theorem fmt_d_ne_newline (n : Int) : ∀ c ∈ (fmt_d n).data, c ≠ '\n' := by
  intro c hc
  cases n with
  | ofNat m => exact nat_repr_ne_newline m c (by simpa [fmt_d, Int.repr] using hc)
  | negSucc m =>
    have : c = '-' ∨ c ∈ (Nat.repr (m + 1)).data := by
      simpa [fmt_d, Int.repr, String.data_append] using hc
    rcases this with h | h
    · subst h; decide
    · exact nat_repr_ne_newline _ c h

theorem toDigitsCore_ne_nil (fuel : Nat) (n : Nat) (acc : List Char) (h : acc ≠ []) :
    Nat.toDigitsCore 10 fuel n acc ≠ [] := by
  induction fuel generalizing n acc with
  | zero => simpa [Nat.toDigitsCore] using h
  | succ f ih =>
    simp only [Nat.toDigitsCore]
    split
    · simp
    · exact ih _ _ (by simp)

theorem fmt_d_ne_nil (n : Int) : (fmt_d n).data ≠ [] := by
  cases n with
  | ofNat m =>
    have : Nat.toDigits 10 m ≠ [] := by
      unfold Nat.toDigits
      simp only [Nat.toDigitsCore]
      split
      · simp
      · exact toDigitsCore_ne_nil _ _ _ (by simp)
    simpa [fmt_d, Int.repr, Nat.repr, List.asString] using this
  | negSucc m => simp [fmt_d, Int.repr, String.data_append]


theorem version_text_ne_newline (v : Int) : ∀ c ∈ (version_text v).data, c ≠ '\n' := by
  intro c hc
  have : c ∈ (fmt_d (Int.tdiv v 1000)).data ∨ c = '.'
      ∨ c ∈ (fmt_d (Int.tmod v 100)).data := by
    simpa [version_text, String.data_append] using hc
  rcases this with h | h | h
  · exact fmt_d_ne_newline _ c h
  · subst h; decide
  · exact fmt_d_ne_newline _ c h

theorem count_eq_zero_of_ne_newline (l : List Char) (h : ∀ c ∈ l, c ≠ '\n') :
    l.count '\n' = 0 :=
  List.count_eq_zero.2 (fun hm => h _ hm rfl)

theorem summary_line_ne_newline (ci : CudaInfo) :
    ∀ line ∈ ci.summary, ∀ c ∈ line.data, c ≠ '\n' := by
  intro line hl c hc
  simp only [CudaInfo.summary, List.mem_cons, List.mem_singleton, List.not_mem_nil, or_false] at hl
  rcases hl with h | h | h | h
  · subst h
    intro hcn
    subst hcn
    revert hc
    decide
  · subst h
    rcases List.mem_append.1 (String.data_append _ _ ▸ hc) with h1 | h1
    · intro hcn; subst hcn; revert h1; decide
    · exact fmt_d_ne_newline _ c h1
  · subst h
    rcases List.mem_append.1 (String.data_append _ _ ▸ hc) with h1 | h1
    · intro hcn; subst hcn; revert h1; decide
    · exact version_text_ne_newline _ c h1
  · subst h
    rcases List.mem_append.1 (String.data_append _ _ ▸ hc) with h1 | h1
    · intro hcn; subst hcn; revert h1; decide
    · exact version_text_ne_newline _ c h1

theorem get_info_data (ci : CudaInfo) :
    ci.get_info.data =
      "CUDA info:".data ++ ['\n'] ++ ("  Device Count:          " ++ fmt_d ci.deviceCount).data
        ++ ['\n'] ++ ("  CUDA Driver Version:   " ++ version_text ci.driverVersion).data
        ++ ['\n'] ++ ("  CUDA Runtime Version:  " ++ version_text ci.runtimeVersion).data := by
  simp [CudaInfo.get_info, CudaInfo.summary, join, String.intercalate, String.intercalate.go,
    String.data_append]

/-! ## Accessors and text -/

/-- C1: `get_max_shared_memory(pref)` returns 16384 when `pref` is the
L1-preferring mode and `major >= 2`, and `sharedMemPerBlock` in every other case. -/
theorem get_max_shared_memory_pref_spec (d : CudaDevice) (pref : cudaFuncCache) :
    (pref = cudaFuncCache.cudaFuncCachePreferL1 → 2 ≤ d.major →
      d.get_max_shared_memory_pref pref = 16384) ∧
    (pref ≠ cudaFuncCache.cudaFuncCachePreferL1 →
      d.get_max_shared_memory_pref pref = d.sharedMemPerBlock) ∧
    (d.major < 2 → d.get_max_shared_memory_pref pref = d.sharedMemPerBlock) := by
  refine ⟨?_, ?_, ?_⟩
  · intro hp hm
    have : (16 : Int) * (1 <<< 10) = 16384 := by decide
    simp [CudaDevice.get_max_shared_memory_pref, hp, hm, this]
  · intro hp
    simp [CudaDevice.get_max_shared_memory_pref, hp]
  · intro hm
    have : ¬ d.major ≥ 2 := by omega
    simp [CudaDevice.get_max_shared_memory_pref, this]

/-- C1 at the two inputs the specification lists: major 3 with 49152 bytes
gives 16384, major 1 with 16384 bytes gives the queried 16384. -/
theorem get_max_shared_memory_pref_witness :
    (sample_device 3 49152).get_max_shared_memory_pref cudaFuncCache.cudaFuncCachePreferL1
      = 16384 ∧
    (sample_device 1 16384).get_max_shared_memory_pref cudaFuncCache.cudaFuncCachePreferL1
      = (sample_device 1 16384).sharedMemPerBlock :=
  ⟨(get_max_shared_memory_pref_spec (sample_device 3 49152) _).1 rfl (by decide),
   (get_max_shared_memory_pref_spec (sample_device 1 16384) _).2.2 (by decide)⟩

/-- C2: `get_info()` is four lines joined by single newlines with no trailing
newline: the header, the device count in decimal, and the driver and runtime
versions each as decimal `v / 1000`, a dot, decimal `v % 100` (C division and
remainder, no zero padding). -/
theorem get_info_spec (ci : CudaInfo) :
    ci.get_info =
      "CUDA info:" ++ "\n"
      ++ ("  Device Count:          " ++ fmt_d ci.deviceCount) ++ "\n"
      ++ ("  CUDA Driver Version:   " ++ fmt_d (Int.tdiv ci.driverVersion 1000) ++ "."
            ++ fmt_d (Int.tmod ci.driverVersion 100)) ++ "\n"
      ++ ("  CUDA Runtime Version:  " ++ fmt_d (Int.tdiv ci.runtimeVersion 1000) ++ "."
            ++ fmt_d (Int.tmod ci.runtimeVersion 100))
    ∧ ci.summary.length = 4
    ∧ (∀ line ∈ ci.summary, '\n' ∉ line.data)
    ∧ ci.get_info.data.count '\n' = 3
    ∧ ci.get_info.data.getLast? ≠ some '\n'
    ∧ version_text 3020 = "3.20"
    ∧ version_text 3005 = "3.5"
    ∧ version_text (-3020) = "-3.-20" := by
  refine ⟨?_, rfl, ?_, ?_, ?_, by decide, by decide, by decide⟩
  · simp [CudaInfo.get_info, CudaInfo.summary, join, String.intercalate, String.intercalate.go,
      version_text, String.append_assoc]
  · intro line hl hmem
    exact summary_line_ne_newline ci line hl _ hmem rfl
  · have h := summary_line_ne_newline ci
    have h1 := count_eq_zero_of_ne_newline _ (h "CUDA info:" (by simp [CudaInfo.summary]))
    have h2 := count_eq_zero_of_ne_newline _ (h _ (by simp [CudaInfo.summary]) :
      ∀ c ∈ ("  Device Count:          " ++ fmt_d ci.deviceCount).data, c ≠ '\n')
    have h3 := count_eq_zero_of_ne_newline _ (h _ (by simp [CudaInfo.summary]) :
      ∀ c ∈ ("  CUDA Driver Version:   " ++ version_text ci.driverVersion).data, c ≠ '\n')
    have h4 := count_eq_zero_of_ne_newline _ (h _ (by simp [CudaInfo.summary]) :
      ∀ c ∈ ("  CUDA Runtime Version:  " ++ version_text ci.runtimeVersion).data, c ≠ '\n')
    rw [get_info_data]
    simp only [List.count_append, h1, h2, h3, h4]
    decide
  · rw [get_info_data]
    intro hlast
    have hne : (fmt_d (Int.tmod ci.runtimeVersion 100)).data ≠ [] := fmt_d_ne_nil _
    have hmem : '\n' ∈ ("  CUDA Runtime Version:  " ++ version_text ci.runtimeVersion).data := by
      have hne2 : ("  CUDA Runtime Version:  " ++ version_text ci.runtimeVersion).data ≠ [] := by
        simp [String.data_append, version_text, hne]
      rw [List.getLast?_append_of_ne_nil _ hne2] at hlast
      exact List.mem_of_getLast?_eq_some hlast
    exact summary_line_ne_newline ci _ (by simp [CudaInfo.summary]) _ hmem rfl

/-- C3, as the specification words it, fails: the text rendered for version 5050
is not "50.50". -/
theorem version_text_5050_ne : ¬ (version_text 5050 = "50.50") := by decide

/-- C3 amended: the text rendered for version 5050 is "5.50" (5050 / 1000 = 5,
5050 % 100 = 50) and for 3020 it is "3.20", in both version lines of `get_info()`. -/
theorem version_text_5050 :
    version_text 5050 = "5.50" ∧ version_text 3020 = "3.20" ∧
    (∀ n : Int,
      CudaInfo.get_info { deviceCount := n, driverVersion := 5050, runtimeVersion := 3020 }
      = "CUDA info:\n  Device Count:          " ++ fmt_d n
        ++ "\n  CUDA Driver Version:   5.50\n  CUDA Runtime Version:  3.20") := by
  refine ⟨by decide, by decide, ?_⟩
  intro n
  have h1 : version_text 5050 = "5.50" := by decide
  have h2 : version_text 3020 = "3.20" := by decide
  simp only [CudaInfo.get_info, CudaInfo.summary, join, String.intercalate, String.intercalate.go,
    h1, h2]
  apply String.ext
  simp [String.data_append]

/-- C10: the version rendering of `get_info()` depends only on `v / 1000` and
`v % 100`, so the hundreds digit never shows, and distinct versions such as
3020 and 3120 render to the same text. -/
theorem version_text_not_injective :
    (∀ v w : Int, Int.tdiv v 1000 = Int.tdiv w 1000 → Int.tmod v 100 = Int.tmod w 100 →
      version_text v = version_text w) ∧
    (∀ a h k r : Nat, h < 10 → k < 10 → r < 100 →
      version_text (1000 * a + 100 * h + r) = version_text (1000 * a + 100 * k + r)) ∧
    (version_text 3020 = "3.20" ∧ version_text 3120 = "3.20" ∧ (3020 : Int) ≠ 3120) ∧
    ¬ Function.Injective version_text := by
  have hmain : ∀ v w : Int, Int.tdiv v 1000 = Int.tdiv w 1000 →
      Int.tmod v 100 = Int.tmod w 100 → version_text v = version_text w := by
    intro v w h1 h2
    simp only [version_text, h1, h2]
  refine ⟨hmain, ?_, ⟨by decide, by decide, by decide⟩, ?_⟩
  · intro a h k r hh hk hr
    apply hmain
    · rw [Int.tdiv_eq_ediv (by positivity) (by decide),
        Int.tdiv_eq_ediv (by positivity) (by decide)]
      omega
    · rw [Int.tmod_eq_emod (by positivity) (by decide),
        Int.tmod_eq_emod (by positivity) (by decide)]
      omega
  · intro hinj
    have : (3020 : Int) = 3120 := hinj (by decide)
    exact absurd this (by decide)

/-- C10 at 3020 and 3120: equal quotient by 1000 and remainder by 100, equal text. -/
theorem version_text_not_injective_witness : version_text 3020 = version_text 3120 :=
  version_text_not_injective.1 3020 3120 (by decide) (by decide)

/-! ## Construction outcomes -/

/-- C4, as the specification words it, fails: on the in-memory backend whose
attribute query succeeds and stores a `sharedSizeBytes` of `2^32 + 5`, the
constructor returns and `get_kernel_shared_mem()`, whose result type is `int`,
gives 5 and not the queried value. -/
theorem get_kernel_shared_mem_narrows :
    (wide_backend.cudaFuncGetAttributes 4096).1 = cudaSuccess ∧
    (wide_backend.cudaFuncGetAttributes 4096).2 = some wide_func_attr ∧
    ∃ k, (CudaKernel.new wide_backend 4096 fake_func_attr World.fresh).1 = Outcome.returned k ∧
      k.get_kernel_shared_mem = 5 ∧
      k.get_kernel_shared_mem ≠ (wide_func_attr.sharedSizeBytes : Int) :=
  ⟨rfl, rfl, { kernel := 4096, func_attr := wide_func_attr }, by decide, by decide, by decide⟩

/-- C4 amended: constructing a `CudaKernel` ends in a thrown (catchable) error
exactly when the attribute query returns a code other than success; the
message is "CUDA error: " followed by the error string of that code; on
success the object is built, `get_kernel_reg_count` and
`get_kernel_max_threads_per_block` give the queried `numRegs` and
`maxThreadsPerBlock`, and `get_kernel_shared_mem` gives the queried
`sharedSizeBytes` whenever that byte count is below `2^31`, so that it fits
the `int` the accessor returns. -/
theorem CudaKernel_new_spec (b : Backend) (kernel : kernel_ptr) (uninit : cudaFuncAttributes)
    (w : World) :
    ((∃ what, (CudaKernel.new b kernel uninit w).1 = Outcome.thrown what)
      ↔ (b.cudaFuncGetAttributes kernel).1 ≠ cudaSuccess) ∧
    ((b.cudaFuncGetAttributes kernel).1 ≠ cudaSuccess →
      (CudaKernel.new b kernel uninit w).1
        = Outcome.thrown ("CUDA error: " ++ b.cudaGetErrorString (b.cudaFuncGetAttributes kernel).1)
      ∧ (b.cudaGetErrorString (b.cudaFuncGetAttributes kernel).1).data
          <:+ ("CUDA error: " ++ b.cudaGetErrorString (b.cudaFuncGetAttributes kernel).1).data) ∧
    (CudaKernel.new b kernel uninit w).1 ≠ Outcome.aborted ∧
    ((b.cudaFuncGetAttributes kernel).1 = cudaSuccess →
      ∃ k, (CudaKernel.new b kernel uninit w).1 = Outcome.returned k ∧ k.kernel = kernel ∧
        ∀ a, (b.cudaFuncGetAttributes kernel).2 = some a →
          (a.sharedSizeBytes < 2 ^ 31 →
            k.get_kernel_shared_mem = (a.sharedSizeBytes : Int)) ∧
          k.get_kernel_reg_count = a.numRegs ∧
          k.get_kernel_max_threads_per_block = a.maxThreadsPerBlock) := by
  by_cases h : (b.cudaFuncGetAttributes kernel).1 = cudaSuccess
  · refine ⟨?_, fun hne => absurd h hne, ?_, ?_⟩
    · simp [CudaKernel.new, CudaKernel.checked_get_function_attributes, h]
    · simp [CudaKernel.new, CudaKernel.checked_get_function_attributes, h]
    · intro _
      refine ⟨{ kernel := kernel, func_attr := store (b.cudaFuncGetAttributes kernel).2 uninit },
        by simp [CudaKernel.new, CudaKernel.checked_get_function_attributes, h], rfl, ?_⟩
      intro a ha
      refine ⟨?_, ?_, ?_⟩
      · intro hfit
        have hmod : a.sharedSizeBytes % 2 ^ 32 = a.sharedSizeBytes :=
          Nat.mod_eq_of_lt (by omega)
        simp only [CudaKernel.get_kernel_shared_mem, int_of_size_t, store, ha, Option.getD_some]
        rw [hmod, if_pos hfit]
      · simp [CudaKernel.get_kernel_reg_count, store, ha]
      · simp [CudaKernel.get_kernel_max_threads_per_block, store, ha]
  · refine ⟨?_, ?_, ?_, fun he => absurd he h⟩
    · simp [CudaKernel.new, CudaKernel.checked_get_function_attributes, h]
    · intro _
      refine ⟨by simp [CudaKernel.new, CudaKernel.checked_get_function_attributes, h], ?_⟩
      rw [String.data_append]
      exact List.suffix_append _ _
    · simp [CudaKernel.new, CudaKernel.checked_get_function_attributes, h]

/-- C4 amended, on the in-memory backend whose attribute query returns code 8:
the constructor throws "CUDA error: invalid device function". -/
theorem CudaKernel_new_witness :
    (CudaKernel.new (fake_backend (some 1) 8) 4096 fake_func_attr World.fresh).1
      = Outcome.thrown "CUDA error: invalid device function" :=
  ((CudaKernel_new_spec (fake_backend (some 1) 8) 4096 fake_func_attr World.fresh).2.1
    (by decide)).1

/-- C5: constructing a `CudaInfo` ends in the assertion failure exactly when
the device count held after the count query is 0; in that case the calls
issued are `cuInit` and `cuDeviceGetCount` only, so no version query has been
made; with a non-zero count the constructor returns and `get_device_count()`
is that count. -/
theorem CudaInfo_new_spec (cfg : Build) (b : Backend) (uninit : CudaInfo) (w : World) :
    ((CudaInfo.new cfg b uninit w).1 = Outcome.aborted ↔ store b.cuDeviceGetCount 0 = 0) ∧
    (store b.cuDeviceGetCount 0 = 0 →
      (CudaInfo.new cfg b uninit w).2.calls
        = w.calls ++ [ApiCall.cuInit, ApiCall.cuDeviceGetCount]) ∧
    (store b.cuDeviceGetCount 0 ≠ 0 →
      ∃ ci, (CudaInfo.new cfg b uninit w).1 = Outcome.returned ci ∧
        ci.get_device_count = store b.cuDeviceGetCount 0) ∧
    (∀ what, (CudaInfo.new cfg b uninit w).1 ≠ Outcome.thrown what) := by
  by_cases h : store b.cuDeviceGetCount 0 = 0
  · refine ⟨?_, ?_, fun hne => absurd h hne, ?_⟩ <;>
      simp [CudaInfo.new, CudaInfo.get_driver_info, World.call, h]
  · by_cases hv : cfg.CUDART_VERSION ≥ 2020
    · refine ⟨?_, fun he => absurd he h, ?_, ?_⟩ <;>
        simp [CudaInfo.new, CudaInfo.get_driver_info, World.call, h, hv, CudaInfo.get_device_count]
    · refine ⟨?_, fun he => absurd he h, ?_, ?_⟩ <;>
        simp [CudaInfo.new, CudaInfo.get_driver_info, World.call, h, hv, CudaInfo.get_device_count]

/-- C5 on the in-memory backend reporting 0 devices: the constructor aborts
after `cuInit` and `cuDeviceGetCount`. -/
theorem CudaInfo_new_witness :
    (CudaInfo.new build_3020 (fake_backend (some 0) 0) ⟨7, 7, 7⟩ World.fresh).2.calls
      = World.fresh.calls ++ [ApiCall.cuInit, ApiCall.cuDeviceGetCount] :=
  (CudaInfo_new_spec build_3020 (fake_backend (some 0) 0) ⟨7, 7, 7⟩ World.fresh).2.1 (by decide)

/-! ## The active-device binding -/

theorem set_device_activeDevice (cfg : Build) (d : CudaDevice) (w : World) :
    (d.set_device cfg w).activeDevice = some d.id := by
  simp [CudaDevice.set_device, cudaSetDevice]

/-- C7: after `d.set_device()` the active device is the index of `d` whatever
the prior binding was; the context is torn down first and the binding set
after; after any sequence of `set_device()` calls the active device is the
index of the last device. -/
theorem set_device_spec (cfg : Build) (w : World) (d : CudaDevice) :
    (d.set_device cfg w).activeDevice = some d.id ∧
    (∃ w1, w1.activeDevice = w.activeDevice ∧ (cudaThreadExit w1).activeDevice = none ∧
      d.set_device cfg w = cudaSetDevice d.id (cudaThreadExit w1)) ∧
    (∃ pre, (d.set_device cfg w).calls
      = w.calls ++ pre ++ [ApiCall.cudaThreadExit, ApiCall.cudaSetDevice d.id]
      ∧ ApiCall.cudaThreadExit ∉ pre ∧ ∀ dev, ApiCall.cudaSetDevice dev ∉ pre) ∧
    (∀ ds : List CudaDevice,
      ((ds ++ [d]).foldl (fun w0 d0 => d0.set_device cfg w0) w).activeDevice = some d.id) := by
  refine ⟨set_device_activeDevice cfg d w, ?_, ?_, ?_⟩
  · exact ⟨_, by cases cfg.LOGGING <;> simp [World.call], rfl, rfl⟩
  · cases hl : cfg.LOGGING
    · exact ⟨[], by simp [CudaDevice.set_device, cudaSetDevice, cudaThreadExit, hl], by simp,
        by simp⟩
    · exact
        ⟨[ApiCall.logger_notice ("Setting CUDA device: cudaSetDevice(" ++ fmt_d d.id ++ ")")],
        by simp [CudaDevice.set_device, cudaSetDevice, cudaThreadExit, World.call, hl],
        by simp, by simp⟩
  · intro ds
    rw [List.foldl_append]
    exact set_device_activeDevice cfg d _

/-- C9: constructing a `CudaDevice`, `get_device_info()` and every read
accessor leave the active-device binding as it was; `set_device()` sets it to
the index of the device, so it is the one operation that can change it. -/
theorem CudaDeviceOp_run_activeDevice (cfg : Build) (b : Backend) (self : CudaDevice) (w : World) :
    (∀ op : CudaDeviceOp, op ≠ CudaDeviceOp.set_device →
      (op.run cfg b self w).activeDevice = w.activeDevice) ∧
    (∀ op : CudaDeviceOp, (op.run cfg b self w).activeDevice ≠ w.activeDevice →
      op = CudaDeviceOp.set_device) ∧
    ((CudaDeviceOp.set_device.run cfg b self w).activeDevice = some self.id) ∧
    (∀ (id : Int) (uninit : CudaDevice),
      (CudaDevice.new cfg b id uninit w).2.activeDevice = w.activeDevice ∧
      (CudaDevice.new cfg b id uninit w).2.stdout = w.stdout) := by
  have key : ∀ op : CudaDeviceOp, op ≠ CudaDeviceOp.set_device →
      (op.run cfg b self w).activeDevice = w.activeDevice := by
    intro op hop
    cases op <;> first
      | exact absurd rfl hop
      | rfl
  refine ⟨key, ?_, set_device_activeDevice cfg self w, fun id uninit => ⟨rfl, rfl⟩⟩
  intro op hne
  by_contra hop
  exact hne (key op hop)

/-! ## Device attributes -/

theorem foldl_append_eq (l : List String) :
    ∀ acc : String, l.foldl (fun r s => r ++ s) acc = acc ++ l.foldl (fun r s => r ++ s) "" := by
  induction l with
  | nil => intro acc; simp
  | cons a l ih =>
    intro acc
    simp only [List.foldl_cons]
    rw [ih (acc ++ a), ih ("" ++ a)]
    simp [String.append_assoc]

theorem string_join_cons (a : String) (l : List String) :
    String.join (a :: l) = a ++ String.join l := by
  simp only [String.join, List.foldl_cons]
  rw [foldl_append_eq]
  simp

theorem main_loop_run (cfg : Build) (b : Backend) (fmt_2f : Int → String)
    (uninit : Int → CudaDevice) (ci : CudaInfo) (m : Nat) :
    ∀ (i : Int) (w : World), ci.deviceCount - i = m →
      main_loop cfg b fmt_2f uninit ci i w =
        (Outcome.returned (),
          { activeDevice := w.activeDevice,
            calls := w.calls
              ++ (List.range m).flatMap (fun k : Nat =>
                    CudaDevice.query_sequence cfg (i + (k : Int))),
            stdout := w.stdout
              ++ String.join ((List.range m).map (fun k : Nat =>
                  (CudaDevice.queried cfg b
                    { uninit (i + (k : Int)) with id := i + (k : Int) }).get_device_info
                    fmt_2f ++ "\n")) }) := by
  induction m with
  | zero =>
    intro i w h
    have hge : ¬ i < ci.get_device_count := by
      simp only [CudaInfo.get_device_count]; omega
    rw [main_loop, if_neg hge]
    simp [String.join]
  | succ m ih =>
    intro i w h
    have hlt : i < ci.get_device_count := by
      simp only [CudaInfo.get_device_count]; omega
    rw [main_loop, if_pos hlt]
    simp only [CudaDevice.new, CudaDevice.get_device_attributes]
    rw [ih (i + 1) _ (by push_cast at h; omega)]
    have hshift : ∀ k : Nat, i + ((k + 1 : Nat) : Int) = i + 1 + (k : Int) := by
      intro k; push_cast; ring
    simp only [List.range_succ_eq_map, List.flatMap_cons, List.map_cons, List.flatMap_map,
      List.map_map, Function.comp_def, Nat.succ_eq_add_one, hshift, string_join_cons,
      World.print]
    simp [String.append_assoc]


theorem CudaInfo_new_returned (cfg : Build) (b : Backend) (uninit_ci : CudaInfo) (w : World)
    (n : Int) (hn : n ≠ 0) (hcount : b.cuDeviceGetCount = some n) :
    ∃ ci w1, CudaInfo.new cfg b uninit_ci w = (Outcome.returned ci, w1) ∧
      ci.deviceCount = n ∧ w1.activeDevice = w.activeDevice ∧ w1.stdout = w.stdout ∧
      ∃ more, w1.calls = w.calls ++ [ApiCall.cuInit, ApiCall.cuDeviceGetCount] ++ more ∧
        ∀ c ∈ more, c = ApiCall.cudaDriverGetVersion ∨ c = ApiCall.cudaRuntimeGetVersion := by
  by_cases hv : cfg.CUDART_VERSION ≥ 2020
  · refine ⟨{ deviceCount := n,
              driverVersion := store b.cudaDriverGetVersion uninit_ci.driverVersion,
              runtimeVersion := store b.cudaRuntimeGetVersion uninit_ci.runtimeVersion },
      (((w.call ApiCall.cuInit).call ApiCall.cuDeviceGetCount).call
        ApiCall.cudaDriverGetVersion).call ApiCall.cudaRuntimeGetVersion,
      by simp [CudaInfo.new, CudaInfo.get_driver_info, store, hcount, hn, hv],
      rfl, rfl, rfl, [ApiCall.cudaDriverGetVersion, ApiCall.cudaRuntimeGetVersion], ?_, ?_⟩
    · simp [World.call]
    · simp
  · refine ⟨{ uninit_ci with deviceCount := n },
      (w.call ApiCall.cuInit).call ApiCall.cuDeviceGetCount,
      by simp [CudaInfo.new, CudaInfo.get_driver_info, store, hcount, hn, hv],
      rfl, rfl, rfl, [], ?_, ?_⟩
    · simp [World.call]
    · simp

/-- C6: for a backend reporting a device count `n >= 1`, `main` returns exit
code 0; what it writes is the platform summary and a newline, then for each
index 0 .. n-1 in increasing order the summary of the device constructed for
that index and a newline, and nothing else; the calls it issues after the
construction of the `CudaInfo` are the query sequences of the indices
0 .. n-1, one construction each. -/
theorem main_spec (cfg : Build) (b : Backend) (fmt_2f : Int → String) (uninit_ci : CudaInfo)
    (uninit : Int → CudaDevice) (w : World) (n : Int) (hn : 1 ≤ n)
    (hcount : b.cuDeviceGetCount = some n) :
    ∃ (ci : CudaInfo) (w1 : World) (devs : List CudaDevice),
      CudaInfo.new cfg b uninit_ci w = (Outcome.returned ci, w1) ∧
      ci.get_device_count = n ∧
      w1.stdout = w.stdout ∧
      devs.length = n.toNat ∧
      (∀ (k : Nat) (hk : k < devs.length) (w0 : World),
        CudaDevice.new cfg b (k : Int) (uninit (k : Int)) w0
          = (Outcome.returned (devs.get ⟨k, hk⟩),
              { w0 with calls := w0.calls ++ CudaDevice.query_sequence cfg (k : Int) })) ∧
      main cfg b fmt_2f uninit_ci uninit w =
        (Outcome.returned 0,
          { activeDevice := w.activeDevice,
            calls := w1.calls
              ++ (List.range n.toNat).flatMap (fun k : Nat =>
                    CudaDevice.query_sequence cfg (k : Int)),
            stdout := w.stdout ++ ci.get_info ++ "\n"
              ++ String.join (devs.map (fun d => d.get_device_info fmt_2f ++ "\n")) }) := by
  obtain ⟨ci, w1, hnew, hci, hact, hout, _⟩ :=
    CudaInfo_new_returned cfg b uninit_ci w n (by omega) hcount
  refine ⟨ci, w1,
    (List.range n.toNat).map (fun k : Nat =>
      CudaDevice.queried cfg b { uninit (k : Int) with id := (k : Int) }),
    hnew, hci, hout, by simp, ?_, ?_⟩
  · intro k hk w0
    simp [CudaDevice.new, CudaDevice.get_device_attributes]
  · have hrun := main_loop_run cfg b fmt_2f uninit ci n.toNat 0
      (w1.print (ci.get_info ++ "\n")) (by rw [hci]; omega)
    simp only [main, hnew, hrun]
    simp [World.print, hact, hout, List.map_map, Function.comp_def, String.append_assoc]

/-- C6 on the in-memory backend with two devices: `main` returns 0 after
writing the platform summary and the summaries of devices 0 and 1. -/
theorem main_witness :
    ∃ (ci : CudaInfo) (w1 : World) (devs : List CudaDevice),
      CudaInfo.new build_3020 (fake_backend (some 2) 0) ⟨7, 7, 7⟩ World.fresh
        = (Outcome.returned ci, w1) ∧
      devs.length = 2 ∧
      main build_3020 (fake_backend (some 2) 0) (fun _ => "0.00") ⟨7, 7, 7⟩
          (fun _ => sample_device 0 0) World.fresh =
        (Outcome.returned 0,
          { activeDevice := none,
            calls := w1.calls
              ++ (CudaDevice.query_sequence build_3020 0 ++ CudaDevice.query_sequence build_3020 1),
            stdout := "" ++ ci.get_info ++ "\n"
              ++ String.join (devs.map (fun d => d.get_device_info (fun _ => "0.00") ++ "\n")) }) :=
  match main_spec build_3020 (fake_backend (some 2) 0) (fun _ => "0.00") ⟨7, 7, 7⟩
      (fun _ => sample_device 0 0) World.fresh 2 (by decide) rfl with
  | ⟨ci, w1, devs, hnew, _, _, hlen, _, hmain⟩ =>
    ⟨ci, w1, devs, hnew, hlen, by simpa [List.range_succ, List.range_zero] using hmain⟩

end cuda_info
